import Mathlib

/-!
# Verification of the FOLIO → Lawson batch-voucher converter

A shallow embedding of `folio_to_lawson.py`: the voucher data model, the
field formatters (`merge_vin_and_inv_date`, `add_space_to_vin`,
`extract_ac_suffix`, `add_quotes`), the invoice/distrib CSV builders
(`create_invoice_csv`, `create_distrib_csv`), the report generator
(`create_email_report`) and the CSV row writer configured in
`output_to_csv`.

Monetary amounts are JSON numbers in the source; they are embedded as
exact integer cents, and the `'%.2f'` Python format is embedded as
`fmt2`, which prints an integer number of cents with two decimals.
Strings are embedded as Lean `String`s; Python `len`, slicing and
`str.split` agree with `String.length`, `take`/`drop` and
`String.splitOn` on the code-point level used here.
-/

namespace FolioToLawson

/-- A fund-distribution line of a voucher (`batchedVoucherLines` element):
`amount` in exact cents, and the hyphen-delimited external account number. -/
structure VoucherLine where
  amount : Int
  externalAccountNumber : String
  deriving Repr, DecidableEq

/-- One batched voucher from the input JSON, amounts in exact cents. -/
structure Voucher where
  accountingCode : String
  amount : Int
  invoiceDate : String
  vendorInvoiceNo : String
  vendorName : String
  folioInvoiceNo : String
  voucherNumber : String
  status : String
  batchedVoucherLines : List VoucherLine
  deriving Repr, DecidableEq

/-- Python `'%.2f' % x` on an exact number of cents: sign, integer part,
dot, two decimal digits. -/
def fmt2 (cents : Int) : String :=
  (if cents < 0 then "-" else "")
    ++ toString (cents.natAbs / 100) ++ "."
    ++ (if cents.natAbs % 100 < 10 then "0" else "") ++ toString (cents.natAbs % 100)

/-- Python `s.rjust(w, "0")`: left-pad with zeros up to width `w`
(unchanged when already at least that wide). -/
def rjust0 (w : Nat) (s : String) : String :=
  String.mk (List.replicate (w - s.length) '0') ++ s

/-- Python `s.ljust(w)` / `f'{s:<35}'`: right-pad with spaces to width `w`. -/
def ljust (w : Nat) (s : String) : String :=
  s ++ String.mk (List.replicate (w - s.length) ' ')

/-- Python `str.split(sep)` for a one-character separator, as structural
recursion on the code-point list (`''.split(sep)` is `['']`, a trailing
separator yields a trailing empty segment). -/
def splitChar (sep : Char) : List Char → List (List Char)
  | [] => [[]]
  | x :: xs =>
    match splitChar sep xs with
    | [] => [[]]
    | h :: t => if x = sep then [] :: h :: t else (x :: h) :: t

/-- Python `s.split(sep)` (one-character separator) as a list of strings. -/
def pySplit (sep : Char) (s : String) : List String :=
  (splitChar sep s.data).map String.mk

/-- Line 176/247/312: `x[2:] if x.startswith('MH') else x` (`startswith`
tested on the first two code points). -/
def strip_mh (vin : String) : String :=
  if vin.data.take 2 = ['M', 'H'] then vin.drop 2 else vin

/-- Lines 175/240: `invoiceDate.str.slice(start=0,stop=10).str.replace('-','')`
— the first ten characters with every dash removed. -/
def format_invoice_date (s : String) : String :=
  String.mk ((s.take 10).data.filter (fun c => c != '-'))

/-- Lines 180/241: `' ' + accountingCode.str.split('_').str[0]`. -/
def format_accounting_code (ac : String) : String :=
  " " ++ (pySplit '_' ac).headD ""

/-- `merge_vin_and_inv_date` (line 411): `field_length - (len(vin)+len(date))`
spaces between the VIN and the date.  Python `' ' * n` is empty for `n ≤ 0`,
which truncated `Nat` subtraction reproduces exactly. -/
def merge_vin_and_inv_date (vin invDate : String) (field_length : Nat) : String :=
  vin ++ String.mk (List.replicate (field_length - (vin.length + invDate.length)) ' ') ++ invDate

/-- `add_space_to_vin` (line 419): pad the VIN with
`field_length - len(vin)` spaces (none when the VIN is already longer). -/
def add_space_to_vin (vin : String) (field_length : Nat) : String :=
  vin ++ String.mk (List.replicate (field_length - vin.length) ' ')

/-- The regex `_\d{2}$` of `extract_ac_suffix`: the string ends in an
underscore followed by exactly two digits. -/
def hasAcSuffix (ac : String) : Bool :=
  match ac.data.reverse with
  | d1 :: d0 :: u :: _ => d1.isDigit && d0.isDigit && u == '_'
  | _ => false

/-- `extract_ac_suffix` (line 425): last character when the code matches
`_\d{2}$`, otherwise two literal spaces. -/
def extract_ac_suffix (ac : String) : String :=
  if hasAcSuffix ac then ac.takeRight 1 else "  "

/-- `add_quotes` (line 403): `'"' + str(v) + '"'`, verbatim, with no
escaping of embedded characters. -/
def add_quotes (v : String) : String :=
  "\"" ++ v ++ "\""

/-- Line 168/228: `df = df[df.status != 'Cancelled']`. -/
def surviving (vs : List Voucher) : List Voucher :=
  vs.filter (fun v => v.status != "Cancelled")

/-! ## Invoice builder (`create_invoice_csv`, lines 146–203) -/

/-- The `reindex` column list of line 183: the invoice row's column order. -/
def invoiceReindexCols : List String :=
  ["a", "accountingCode", "b", "vendorInvoiceNo",
   "c", "d", "e", "f", "g", "h", "creditdebit", "i", "j", "invoiceDate",
   "k", "l", "m", "n", "o", "p", "VINandInvDate", "q", "amount",
   "r", "s", "t", "u", "v", "w", "x", "y", "z", "aa", "bb", "accountingCodeSuffix"]

/-- The value an invoice row carries in a named column, after the
transformations of lines 175–196: prefix-stripping, date formatting,
merge/pad fields, constants `a`/`f`/`g`, `add_quotes` on the listed
columns, `fillna("")` on the empty filler columns and the `'%.2f'`
float format applied by `to_csv` to `amount`. -/
def invoiceCell (v : Voucher) : String → String
  | "a" => add_quotes "10"
  | "accountingCode" => add_quotes (format_accounting_code v.accountingCode)
  | "vendorInvoiceNo" => add_quotes (add_space_to_vin (strip_mh v.vendorInvoiceNo) 15)
  | "f" => add_quotes "LBR"
  | "g" => add_quotes "10"
  | "creditdebit" => add_quotes (if v.amount < 0 then "C" else "")
  | "invoiceDate" => format_invoice_date v.invoiceDate
  | "VINandInvDate" =>
      add_quotes (merge_vin_and_inv_date (strip_mh v.vendorInvoiceNo)
        (format_invoice_date v.invoiceDate) 22)
  | "amount" => fmt2 v.amount
  | "accountingCodeSuffix" => add_quotes (extract_ac_suffix v.accountingCode)
  | _ => ""

/-- One surviving voucher's invoice data row, cells in `reindex` order. -/
def invoice_row (v : Voucher) : List String :=
  invoiceReindexCols.map (invoiceCell v)

/-- The control header of lines 198–200 (invoice variant). -/
def invoice_header (runDate : String) (count : Nat) (total : String) : List String :=
  ["\"$$$\"", "\"LibraryFolio\"", runDate, "\"FOLIO UPLOAD FOR APCINVOICE\"",
   "\"Y\"", "\"AP\"", rjust0 5 (toString count), rjust0 10 total, "\"SCOLGLAZ\""]

/-- `create_invoice_csv` for one input batch: `none` when the batch has no
surviving voucher (file creation skipped, line 169), otherwise the control
header and one data row per surviving voucher. -/
def invoice_file (vs : List Voucher) (runDate : String) :
    Option (List String × List (List String)) :=
  let surv := surviving vs
  if surv.isEmpty then none
  else
    some (invoice_header runDate surv.length
            (fmt2 (((surv.map Voucher.amount).sum).natAbs : Int)),
          surv.map invoice_row)

/-! ## Distrib builder (`create_distrib_csv`, lines 206–268) -/

/-- Line 237–238: explode each surviving voucher into one record per
`batchedVoucherLines` entry, keeping the voucher's own fields on each. -/
def exploded (vs : List Voucher) : List (Voucher × VoucherLine) :=
  vs.flatMap (fun v => v.batchedVoucherLines.map (fun l => (v, l)))

/-- `groupby('vendorInvoiceNo').cumcount() + 1` (line 244): each entry's
1-based occurrence count of its own value among the entries so far, its
group's running counter carried in the `seen` accumulator. -/
def cumcountAux (seen : List String) : List String → List Nat
  | [] => []
  | v :: rest => (seen.count v + 1) :: cumcountAux (seen ++ [v]) rest

/-- The `VINIndex` column (line 244), computed over the file's rows in
order, from the (not yet prefix-stripped) `vendorInvoiceNo` values. -/
def vinIndexes (vins : List String) : List Nat :=
  cumcountAux [] vins

/-- Line 245: `split('-', expand=True)` produces one column per hyphen
segment up to the file-wide maximum segment count, and `rename` ignores
absent keys — so the `EAN4` column that line 250 subscripts exists only
when this maximum is at least 4. -/
def eanColumnCount (rows : List (Voucher × VoucherLine)) : Nat :=
  (rows.map (fun (r : Voucher × VoucherLine) =>
    (pySplit '-' r.2.externalAccountNumber).length)).foldr max 0

/-- Line 245: `externalAccountNumber.str.split('-', expand=True).fillna('')`
restricted to the five named columns `EAN1..EAN5`: the hyphen segments,
padded with empty strings to five, extra segments dropped at `reindex`.
This per-row defaulting is what the frame does *provided* the columns
exist (`eanColumnCount ≥ 4`; `EAN5` alone is recreated by the
`reindex`/`fillna` of lines 252/258 when only it is missing) — the
file-level `KeyError` of line 250 is handled in `distrib_file`. -/
def ean_expand (s : String) : List String :=
  let parts := pySplit '-' s
  (parts ++ List.replicate (5 - parts.length) "").take 5

/-- Segment `i` (0-based) of the expanded external account number. -/
def eanSeg (s : String) (i : Nat) : String :=
  (ean_expand s).getD i ""

/-- The `reindex` column list of line 252: the distrib row's column order. -/
def distribReindexCols : List String :=
  ["a", "accountingCode", "b", "vendorInvoiceNo",
   "c", "VINIndex", "amount", "d", "e", "f", "EAN2", "EAN3", "EAN4",
   "h", "i", "j", "VINandInvDate", "k", "EAN5"]

/-- The value a distrib row carries in a named column after lines 240–262:
date/accounting-code formatting, EAN segmentation with `EAN4` cut to its
last two characters (line 250) and empty `EAN5` replaced by six spaces
(line 259), prefix-stripped VIN padded to 14, the width-23 merge field,
constants `a`/`e`, quoting, and `'%.2f'` on the line amount. -/
def distribCell (v : Voucher) (l : VoucherLine) (idx : Nat) : String → String
  | "a" => add_quotes "10"
  | "accountingCode" => add_quotes (format_accounting_code v.accountingCode)
  | "vendorInvoiceNo" => add_quotes (add_space_to_vin (strip_mh v.vendorInvoiceNo) 14)
  | "VINIndex" => toString idx
  | "amount" => fmt2 l.amount
  | "e" => add_quotes "10"
  | "EAN2" => add_quotes (eanSeg l.externalAccountNumber 1)
  | "EAN3" => add_quotes (eanSeg l.externalAccountNumber 2)
  | "EAN4" => add_quotes ((eanSeg l.externalAccountNumber 3).takeRight 2)
  | "VINandInvDate" =>
      add_quotes (merge_vin_and_inv_date (strip_mh v.vendorInvoiceNo)
        (format_invoice_date v.invoiceDate) 23)
  | "EAN5" =>
      add_quotes (if eanSeg l.externalAccountNumber 4 = "" then "      "
                  else eanSeg l.externalAccountNumber 4)
  | _ => ""

/-- One exploded line's distrib data row, cells in `reindex` order. -/
def distrib_row (v : Voucher) (l : VoucherLine) (idx : Nat) : List String :=
  distribReindexCols.map (distribCell v l idx)

/-- All distrib data rows of a file: exploded records paired with their
`VINIndex` (computed on the pre-stripping VINs, as at line 244 the MH
prefix has not been removed yet). -/
def distrib_rows_of (rows : List (Voucher × VoucherLine)) : List (List String) :=
  (rows.zip (vinIndexes (rows.map (fun r => r.1.vendorInvoiceNo)))).map
    (fun p => distrib_row p.1.1 p.1.2 p.2)

/-- The pre-stripping `vendorInvoiceNo` of each exploded record, in row
order: the column `groupby` works on at line 244. -/
def explodedVins (rows : List (Voucher × VoucherLine)) : List String :=
  rows.map (fun r => r.1.vendorInvoiceNo)

/-- The `externalAccountNumber` of each exploded record, in row order:
the column line 245 splits. -/
def explodedEans (rows : List (Voucher × VoucherLine)) : List String :=
  rows.map (fun r => r.2.externalAccountNumber)

/-- The control header of lines 263–265 (distrib variant). -/
def distrib_header (runDate : String) (count : Nat) (total : String) : List String :=
  ["\"$$$\"", "\"LibraryFolio\"", runDate, "\"FOLIO UPLOAD FOR APCDISTRIB\"",
   "\"Y\"", "\"AP\"", rjust0 5 (toString count), rjust0 10 total, "\"SCOLGLAZ\""]

/-- `create_distrib_csv` for one input batch.  `Except.ok none` when no
voucher survives (file creation skipped, line 229).  When every surviving
line's `externalAccountNumber` has fewer than four hyphen segments, the
frame of line 245 has no `EAN4` column and line 250 (`df['EAN4']`) raises
`KeyError`, so no file is produced: `Except.error`.  Otherwise the
control header — row count and absolute total of the *line* amounts
(lines 242–243) — and the exploded data rows. -/
def distrib_file (vs : List Voucher) (runDate : String) :
    Except String (Option (List String × List (List String))) :=
  let surv := surviving vs
  if surv.isEmpty then Except.ok none
  else
    let rows := exploded surv
    if eanColumnCount rows < 4 then Except.error "KeyError: 'EAN4'"
    else
      Except.ok (some (distrib_header runDate rows.length
            (fmt2 ((((rows.map (fun (r : Voucher × VoucherLine) => r.2.amount)).sum)).natAbs : Int)),
          distrib_rows_of rows))

/-! ## Report generator (`create_email_report`, lines 271–345) -/

/-- The per-voucher block of report lines appended at lines 316–333:
twelve header lines, one line per voucher line, and a closing blank. -/
def report_block (runDate : String) (v : Voucher) : List String :=
  ["******** INVOICE REPORT TOTALED BY EXTERNAL FUND CODE ********\n",
   "    Vendor Invoice Number:         " ++ strip_mh v.vendorInvoiceNo ++ "\n",
   "    Vendor:                        " ++ v.vendorName ++ "\n",
   "    Accounting Code:               " ++ v.accountingCode ++ "\n",
   "    FOLIO Voucher Number:          " ++ v.voucherNumber ++ "\n",
   "    FOLIO Invoice Number:          " ++ v.folioInvoiceNo ++ "\n",
   "    Report Date:                   " ++ runDate ++ "\n",
   "    Invoice Date:                  " ++ v.invoiceDate.take 10 ++ "\n",
   "    Invoice Total:                 " ++ fmt2 v.amount ++ "\n",
   "    Credit/Debit:                  " ++ (if v.amount ≥ 0 then "D" else "C") ++ "\n",
   "    External Fund                       Amount     \n",
   "    ------------------------------      ------------\n"]
  ++ v.batchedVoucherLines.map
       (fun l => "    " ++ ljust 35 l.externalAccountNumber ++ " " ++ fmt2 l.amount ++ "\n")
  ++ ["\n\n"]

/-- The two summary lines of lines 335–336 for the running count/total. -/
def report_summary (invoice_count : Nat) (grand_total : Int) : List String :=
  ["Total number of invoices: " ++ toString invoice_count ++ "\n",
   "Grand total amount: " ++ fmt2 grand_total]

/-- The loop state of `create_email_report`'s per-voucher loop:
the accumulated `report_list`, running `grand_total` and
`invoice_count`, and the filenames appended to `output_file_list`. -/
structure ReportState where
  report_list : List String
  grand_total : Int
  invoice_count : Nat
  files : List String
  deriving Repr, DecidableEq

/-- One iteration of `for voucher in batch` (lines 297–343).  A cancelled
voucher `continue`s past everything.  For a surviving voucher the block is
appended, the running totals advance, and then — at the loop's own
indentation level (lines 334–343) — the summary lines are appended and the
report file is (re)written and recorded, once per surviving voucher. -/
def report_step (runDate fname : String) (st : ReportState) (v : Voucher) : ReportState :=
  if v.status == "Cancelled" then st
  else
    let gt := st.grand_total + v.amount
    let ic := st.invoice_count + 1
    let rl := st.report_list ++ report_block runDate v ++ report_summary ic gt
    { report_list := rl, grand_total := gt, invoice_count := ic,
      files := if rl.isEmpty then st.files else st.files ++ [fname] }

/-- `create_email_report` for one input batch file: fold the per-voucher
loop from the empty state.  The final `report_list` is the written file's
content (each rewrite, line 340, replaces the previous one), and `files`
is what the function appends to its returned `output_file_list`. -/
def create_email_report_file (runDate fname : String) (batch : List Voucher) : ReportState :=
  batch.foldl (report_step runDate fname) ⟨[], 0, 0, []⟩

/-! ## Output encoder (`output_to_csv`, lines 348–392)

The data rows are written by `df.to_csv(..., quoting=csv.QUOTE_NONE,
escapechar="")`.  An empty `escapechar` leaves the csv writer's escape
character unset, and pandas clears the quote character when quoting is
`QUOTE_NONE`; per the csv module's documented `QUOTE_NONE` behaviour the
writer then emits every field verbatim, joined by the delimiter, and
raises `Error("need to escape, but no escapechar set")` whenever a field
contains a character that would need escaping (the delimiter or a line
terminator character). -/

/-- A character the `QUOTE_NONE` writer would have to escape in a data
cell: the `,` delimiter or a line-terminator character. -/
def csvSpecialChar (c : Char) : Bool :=
  c == ',' || c == '\r' || c == '\n'

/-- Writing one data row with the writer configured at line 390:
fields joined verbatim with commas, or the csv error when some field
contains a character needing the (unset) escape character. -/
def write_data_row (cells : List String) : Except String String :=
  if cells.any (fun s => s.data.any csvSpecialChar) then
    Except.error "need to escape, but no escapechar set"
  else
    Except.ok (String.intercalate "," cells)

/-! ## Concrete sample inputs -/

/-- The spec's round-trip example voucher (amount `12.50`, VIN `"MH1001"`,
date `"2024-01-15T00:00:00"`, accounting code `"100_05"`, one line with
external account number `"11-22-33-4456-"`). -/
def sampleV : Voucher :=
  ⟨"100_05", 1250, "2024-01-15T00:00:00", "MH1001", "Acme", "F1", "V1", "Paid",
   [⟨1250, "11-22-33-4456-"⟩]⟩

/-- A cancelled voucher, with a line, used to exercise the exclusion
invariant. -/
def cancelledV : Voucher :=
  ⟨"200_17", 9999, "2024-02-02T00:00:00", "MH777", "Gone", "F9", "V9", "Cancelled",
   [⟨9999, "9-8-7-6-5"⟩]⟩

/-- A voucher whose VIN carries the `MH` prefix; post-stripping it equals
`noPrefixV`'s VIN. -/
def prefixedV : Voucher :=
  ⟨"100_05", 1000, "2024-01-15T00:00:00", "MH100", "A", "F1", "N1", "Paid",
   [⟨1000, "1-2-3-4-5"⟩]⟩

/-- A voucher whose VIN is `prefixedV`'s VIN already stripped. -/
def noPrefixV : Voucher :=
  ⟨"300_21", 500, "2024-03-03T00:00:00", "100", "B", "F2", "N2", "Paid",
   [⟨500, "6-7-8-9-0"⟩]⟩

/-- A second surviving voucher with a negative amount and two lines. -/
def negativeV : Voucher :=
  ⟨"300", -725, "2024-03-03T00:00:00", "555", "B", "F2", "N2", "Paid",
   [⟨-300, "6-7"⟩, ⟨-425, "6-7-8-9-0"⟩]⟩

/-- A surviving voucher whose only line's external account number has
just three hyphen segments. -/
def threeSegV : Voucher :=
  ⟨"400_12", 800, "2024-04-01T00:00:00", "MH42", "C", "F3", "N3", "Paid",
   [⟨800, "1-2-3"⟩]⟩

/-- A surviving voucher whose only line's external account number has
just two hyphen segments. -/
def twoSegV : Voucher :=
  ⟨"500", 600, "2024-05-01T00:00:00", "77", "D", "F4", "N4", "Paid",
   [⟨600, "55-66"⟩]⟩

/-- Modelled from the claim's column enumeration (spec §6): the invoice
row layout with *seven* filler columns between `invoiceDate` and
`VINandInvDate` (36 columns in all), the derived cells carrying the
values the builders produce.  Stated for comparison with `invoice_row`. -/
def claimedInvoiceRowLayout (v : Voucher) : List String :=
  [add_quotes "10", add_quotes (format_accounting_code v.accountingCode), "",
   add_quotes (add_space_to_vin (strip_mh v.vendorInvoiceNo) 15),
   "", "", "", add_quotes "LBR", add_quotes "10", "",
   add_quotes (if v.amount < 0 then "C" else ""), "", "",
   format_invoice_date v.invoiceDate,
   "", "", "", "", "", "", "",
   add_quotes (merge_vin_and_inv_date (strip_mh v.vendorInvoiceNo)
     (format_invoice_date v.invoiceDate) 22),
   "", fmt2 v.amount,
   "", "", "", "", "", "", "", "", "", "", "",
   add_quotes (extract_ac_suffix v.accountingCode)]

/-! ## Helper lemmas -/

theorem length_mk_replicate (n : Nat) (c : Char) :
    (String.mk (List.replicate n c)).length = n := by
  simp [String.length]

theorem length_cumcountAux (seen l : List String) :
    (cumcountAux seen l).length = l.length := by
  induction l generalizing seen with
  | nil => rfl
  | cons v rest ih => simp [cumcountAux, ih]

theorem length_vinIndexes (vins : List String) :
    (vinIndexes vins).length = vins.length :=
  length_cumcountAux [] vins

theorem cumcountAux_getElem (seen l : List String) (i : Nat) (hi : i < l.length)
    (hi' : i < (cumcountAux seen l).length) :
    (cumcountAux seen l)[i] = (seen ++ l.take i).count (l[i]) + 1 := by
  induction l generalizing seen i with
  | nil => exact absurd hi (by simp)
  | cons v rest ih =>
    cases i with
    | zero => simp [cumcountAux]
    | succ j =>
      have hj : j < rest.length := by simpa using hi
      have hj' : j < (cumcountAux (seen ++ [v]) rest).length := by
        simpa [length_cumcountAux] using hj
      simp only [cumcountAux, List.getElem_cons_succ, ih (seen ++ [v]) j hj hj',
        List.take_succ_cons, List.append_assoc, List.singleton_append]

theorem vinIndexes_getElem (vins : List String) (i : Nat) (hi : i < vins.length)
    (hi' : i < (vinIndexes vins).length) :
    (vinIndexes vins)[i] = (vins.take i).count (vins[i]) + 1 := by
  simpa [vinIndexes] using cumcountAux_getElem [] vins i hi hi'

theorem surviving_append_cancelled (vs₁ vs₂ : List Voucher) (v : Voucher)
    (h : v.status = "Cancelled") :
    surviving (vs₁ ++ v :: vs₂) = surviving (vs₁ ++ vs₂) := by
  simp [surviving, List.filter_append, List.filter_cons, h]

theorem eanSeg_eq_split (s : String) (i : Nat) (hi : i < 5) :
    eanSeg s i = (pySplit '-' s).getD i "" := by
  unfold eanSeg ean_expand
  rw [List.getD_eq_getElem?_getD, List.getD_eq_getElem?_getD, List.getElem?_take,
    if_pos hi, List.getElem?_append]
  by_cases hp : i < (pySplit '-' s).length
  · rw [if_pos hp]
  · rw [if_neg hp, List.getElem?_replicate, if_pos (by omega),
      List.getElem?_eq_none (le_of_not_lt hp)]
    rfl

/-! ## Claim theorems -/

/-- **C5.** For every row whose post-stripping VIN length plus invoice-date
length is at most the configured width `w` (22 for invoice rows, 23 for
distrib rows), the merged `VINandInvDate` field produced by
`merge_vin_and_inv_date` has length exactly `w`. -/
theorem c5_merge_field_exact_width (vin invDate : String) (w : Nat)
    (h : vin.length + invDate.length ≤ w) :
    (merge_vin_and_inv_date vin invDate w).length = w := by
  unfold merge_vin_and_inv_date
  rw [String.length_append, String.length_append, length_mk_replicate]
  omega

/-- Witness for C5: the spec's example VIN at both configured widths. -/
theorem c5_witness :
    (("1001" : String).length + ("20240115" : String).length ≤ 22 ∧
      (merge_vin_and_inv_date "1001" "20240115" 22).length = 22) ∧
    (("1001" : String).length + ("20240115" : String).length ≤ 23 ∧
      (merge_vin_and_inv_date "1001" "20240115" 23).length = 23) :=
  ⟨⟨by decide, c5_merge_field_exact_width "1001" "20240115" 22 (by decide)⟩,
   ⟨by decide, c5_merge_field_exact_width "1001" "20240115" 23 (by decide)⟩⟩

/-- **C3.** The claim says an overflowing VIN/date pair is rejected with a
`FieldOverflowError`.  The code raises nothing: Python's `' ' * n` is empty
for negative `n`, so `merge_vin_and_inv_date` silently returns the bare
concatenation, one character wider than the width-22 field — contradicting
its own docstring ("so that it is always 22 chars").  Evaluated at a
15-character post-stripping VIN and an 8-digit date. -/
theorem c3_overflow_emits_overwide_field :
    merge_vin_and_inv_date "123456789012345" "20240115" 22
      = "12345678901234520240115" ∧
    (merge_vin_and_inv_date "123456789012345" "20240115" 22).length = 23 := by
  constructor <;> rfl

/-- **C9.** When the post-stripping VIN is longer than the padded field's
target width (15 for invoice rows, 14 for distrib rows),
`add_space_to_vin` returns the VIN unchanged — no truncation, padding or
error — so the fixed-width column silently exceeds its declared width. -/
theorem c9_vin_pad_overflow_unchanged (vin : String) (w : Nat)
    (h : w < vin.length) :
    add_space_to_vin vin w = vin ∧ (add_space_to_vin vin w).length = vin.length := by
  have h0 : w - vin.length = 0 := by omega
  constructor <;> simp [add_space_to_vin, h0]

/-- Witness for C9: a 16-character VIN against the invoice width 15. -/
theorem c9_witness :
    15 < ("1234567890123456" : String).length ∧
    (add_space_to_vin "1234567890123456" 15 = "1234567890123456" ∧
      (add_space_to_vin "1234567890123456" 15).length
        = ("1234567890123456" : String).length) :=
  ⟨by decide, c9_vin_pad_overflow_unchanged "1234567890123456" 15 (by decide)⟩

/-- **C1.** A voucher with status `"Cancelled"` contributes nothing to any
output artifact: inserting it anywhere in a batch leaves the invoice file
(rows, counts and control total), the distrib file (rows, counts and
control total) and the report state (blocks, invoice count, signed grand
total and produced files) exactly unchanged. -/
theorem c1_cancelled_contributes_nothing (vs₁ vs₂ : List Voucher) (v : Voucher)
    (h : v.status = "Cancelled") (d fname : String) :
    invoice_file (vs₁ ++ v :: vs₂) d = invoice_file (vs₁ ++ vs₂) d ∧
    distrib_file (vs₁ ++ v :: vs₂) d = distrib_file (vs₁ ++ vs₂) d ∧
    create_email_report_file d fname (vs₁ ++ v :: vs₂)
      = create_email_report_file d fname (vs₁ ++ vs₂) := by
  have hsurv := surviving_append_cancelled vs₁ vs₂ v h
  refine ⟨by rw [invoice_file, invoice_file, hsurv], by rw [distrib_file, distrib_file, hsurv], ?_⟩
  unfold create_email_report_file
  rw [List.foldl_append, List.foldl_append, List.foldl_cons]
  have hstep : ∀ st, report_step d fname st v = st := by
    intro st
    simp [report_step, h]
  rw [hstep]

/-- Witness for C1: a concrete cancelled voucher inserted into a
one-voucher batch. -/
theorem c1_witness :
    cancelledV.status = "Cancelled" ∧
    (invoice_file [sampleV, cancelledV] "20240115" = invoice_file [sampleV] "20240115" ∧
     distrib_file [sampleV, cancelledV] "20240115" = distrib_file [sampleV] "20240115" ∧
     create_email_report_file "20240115" "r.txt" [sampleV, cancelledV]
       = create_email_report_file "20240115" "r.txt" [sampleV]) :=
  ⟨rfl, c1_cancelled_contributes_nothing [sampleV] [] cancelledV rfl "20240115" "r.txt"⟩

/-- **C2 counterexample.** The claim asserts that every batch with a
surviving voucher gets a distrib file with a control header.  A surviving
batch whose only line's `externalAccountNumber` has three hyphen segments
is in-domain (the spec allows 1–5 segments), yet `create_distrib_csv`
crashes at line 250 with `KeyError: 'EAN4'` — `split(expand=True)` made
only three columns — so no distrib file or header exists for it. -/
theorem c2_counterexample :
    (surviving [threeSegV]).isEmpty = false ∧
    eanColumnCount (exploded (surviving [threeSegV])) = 3 ∧
    distrib_file [threeSegV] "20240101" = Except.error "KeyError: 'EAN4'" :=
  ⟨rfl, rfl, rfl⟩

/-- **C2 (amended).** For every batch with at least one surviving
voucher, the invoice control header carries the surviving-voucher count
zero-padded to width 5 and the absolute voucher-amount total at two
decimals zero-padded to width 10; and whenever the distrib file is
actually produced (which additionally requires some surviving line's
`externalAccountNumber` to have at least four hyphen segments — otherwise
`create_distrib_csv` dies with `KeyError: 'EAN4'`), its control header
carries the exploded row count (width 5) and the absolute total of the
*line* amounts (width 10); the counts equal the number of data rows
actually emitted. -/
theorem c2_control_headers_amended (vs : List Voucher) (d : String)
    (h : (surviving vs).isEmpty = false) :
    (∃ ihdr irows,
      invoice_file vs d = some (ihdr, irows) ∧
      irows.length = (surviving vs).length ∧
      ihdr.getD 6 "" = rjust0 5 (toString irows.length) ∧
      ihdr.getD 7 ""
        = rjust0 10 (fmt2 ((((surviving vs).map Voucher.amount).sum).natAbs : Int))) ∧
    (∀ dhdr drows, distrib_file vs d = Except.ok (some (dhdr, drows)) →
      drows.length = (exploded (surviving vs)).length ∧
      dhdr.getD 6 "" = rjust0 5 (toString drows.length) ∧
      dhdr.getD 7 ""
        = rjust0 10 (fmt2 ((((exploded (surviving vs)).map
            (fun (r : Voucher × VoucherLine) => r.2.amount)).sum).natAbs : Int))) := by
  constructor
  · refine ⟨invoice_header d (surviving vs).length
              (fmt2 ((((surviving vs).map Voucher.amount).sum).natAbs : Int)),
            (surviving vs).map invoice_row, ?_, ?_, ?_, ?_⟩
    · rw [invoice_file]
      simp only [h, Bool.false_eq_true, if_false]
    · simp
    · simp [invoice_header]
    · rfl
  · intro dhdr drows hd
    rw [distrib_file] at hd
    simp only [h, Bool.false_eq_true, if_false] at hd
    by_cases hc : eanColumnCount (exploded (surviving vs)) < 4
    · simp [hc] at hd
    · simp only [hc, if_false, Except.ok.injEq, Option.some.injEq, Prod.mk.injEq] at hd
      obtain ⟨hh, hr⟩ := hd
      subst hh hr
      refine ⟨?_, ?_, rfl⟩
      · simp [distrib_rows_of, length_vinIndexes]
      · simp [distrib_header, distrib_rows_of, length_vinIndexes]

/-- Witness for C2 (amended): a batch of a positive single-line voucher,
a cancelled voucher and a negative two-line voucher, whose distrib file
is produced. -/
theorem c2_witness :
    (surviving [sampleV, cancelledV, negativeV]).isEmpty = false ∧
    (∃ ihdr irows,
      invoice_file [sampleV, cancelledV, negativeV] "20240115" = some (ihdr, irows) ∧
      irows.length = (surviving [sampleV, cancelledV, negativeV]).length ∧
      ihdr.getD 6 "" = rjust0 5 (toString irows.length) ∧
      ihdr.getD 7 ""
        = rjust0 10 (fmt2 ((((surviving [sampleV, cancelledV, negativeV]).map
            Voucher.amount).sum).natAbs : Int))) ∧
    (distrib_file [sampleV, cancelledV, negativeV] "20240115"
      = Except.ok (some
          (distrib_header "20240115"
            (exploded (surviving [sampleV, cancelledV, negativeV])).length
            (fmt2 ((((exploded (surviving [sampleV, cancelledV, negativeV])).map
              (fun (r : Voucher × VoucherLine) => r.2.amount)).sum).natAbs : Int)),
           distrib_rows_of (exploded (surviving [sampleV, cancelledV, negativeV])))) ∧
      (distrib_rows_of (exploded (surviving [sampleV, cancelledV, negativeV]))).length
        = (exploded (surviving [sampleV, cancelledV, negativeV])).length ∧
      (distrib_header "20240115"
          (exploded (surviving [sampleV, cancelledV, negativeV])).length
          (fmt2 ((((exploded (surviving [sampleV, cancelledV, negativeV])).map
            (fun (r : Voucher × VoucherLine) => r.2.amount)).sum).natAbs : Int))).getD 6 ""
        = rjust0 5 (toString
            (distrib_rows_of (exploded (surviving [sampleV, cancelledV, negativeV]))).length) ∧
      (distrib_header "20240115"
          (exploded (surviving [sampleV, cancelledV, negativeV])).length
          (fmt2 ((((exploded (surviving [sampleV, cancelledV, negativeV])).map
            (fun (r : Voucher × VoucherLine) => r.2.amount)).sum).natAbs : Int))).getD 7 ""
        = rjust0 10 (fmt2 ((((exploded (surviving [sampleV, cancelledV, negativeV])).map
            (fun (r : Voucher × VoucherLine) => r.2.amount)).sum).natAbs : Int))) :=
  ⟨rfl,
   (c2_control_headers_amended [sampleV, cancelledV, negativeV] "20240115" rfl).1,
   rfl,
   (c2_control_headers_amended [sampleV, cancelledV, negativeV] "20240115" rfl).2 _ _ rfl⟩

/-- **C4 counterexample.** The claim says `VINIndex` counts occurrences of
the same *post-stripping* `vendorInvoiceNo`, so two vouchers whose VINs
agree after stripping continue one sequence.  `prefixedV` (VIN `"MH100"`)
and `noPrefixV` (VIN `"100"`) strip to the same VIN, yet `groupby` runs on
the pre-stripping column, so both of their rows get `VINIndex` 1 — the
second is not 2 as the claim requires. -/
theorem c4_counterexample :
    strip_mh prefixedV.vendorInvoiceNo = strip_mh noPrefixV.vendorInvoiceNo ∧
    distrib_file [prefixedV, noPrefixV] "20240101"
      = Except.ok (some (distrib_header "20240101" 2 (fmt2 1500),
          distrib_rows_of (exploded (surviving [prefixedV, noPrefixV])))) ∧
    (distrib_rows_of (exploded (surviving [prefixedV, noPrefixV]))).length = 2 ∧
    ((distrib_rows_of (exploded (surviving [prefixedV, noPrefixV]))).getD 0 []).getD 5 ""
      = "1" ∧
    ((distrib_rows_of (exploded (surviving [prefixedV, noPrefixV]))).getD 1 []).getD 5 ""
      = "1" := by
  refine ⟨by decide, rfl, rfl, rfl, rfl⟩

/-- **C4 (amended).** `VINIndex` is a 1-based sequence counting, in row
order across the whole file, occurrences of the same *pre-stripping*
`vendorInvoiceNo` (the `groupby` at line 244 runs before the `MH` prefix
is removed): the `VINIndex` cell of the `i`-th emitted distrib row is one
more than the number of earlier rows carrying the same raw VIN, so lines
of one voucher get consecutive indices and vouchers sharing a raw VIN
continue the same sequence rather than resetting. -/
theorem c4_vinindex_counts_prestrip_vins (vs : List Voucher) (d : String)
    (hdr : List String) (rows : List (List String))
    (h : distrib_file vs d = Except.ok (some (hdr, rows))) (i : Nat)
    (hi : i < rows.length) :
    (rows.getD i []).getD 5 ""
      = toString (((explodedVins (exploded (surviving vs))).take i).count
          ((explodedVins (exploded (surviving vs))).getD i "") + 1) := by
  rw [distrib_file] at h
  by_cases hs : (surviving vs).isEmpty
  · simp [hs] at h
  · simp only [hs, Bool.false_eq_true, if_false] at h
    by_cases hc : eanColumnCount (exploded (surviving vs)) < 4
    · simp [hc] at h
    · simp only [hc, if_false, Except.ok.injEq, Option.some.injEq, Prod.mk.injEq] at h
      obtain ⟨-, hrows⟩ := h
      subst hrows
      have hlen : (vinIndexes ((exploded (surviving vs)).map
          (fun r => r.1.vendorInvoiceNo))).length = (exploded (surviving vs)).length := by
        rw [length_vinIndexes, List.length_map]
      have hiR : i < (exploded (surviving vs)).length := by
        have := hi
        simp only [distrib_rows_of, List.length_map, List.length_zip, hlen,
          Nat.min_self] at this
        exact this
      have himap : i < ((exploded (surviving vs)).map (fun r => r.1.vendorInvoiceNo)).length := by
        simpa using hiR
      have hvlen : i < (vinIndexes ((exploded (surviving vs)).map
          (fun r => r.1.vendorInvoiceNo))).length := by omega
      have hrow : (distrib_rows_of (exploded (surviving vs)))[i]
          = distrib_row (exploded (surviving vs))[i].1
              (exploded (surviving vs))[i].2
              (vinIndexes ((exploded (surviving vs)).map (fun r => r.1.vendorInvoiceNo)))[i] := by
        simp only [distrib_rows_of]
        rw [List.getElem_map, List.getElem_zip]
      rw [List.getD_eq_getElem _ _ hi, hrow]
      have hvin : (vinIndexes ((exploded (surviving vs)).map
            (fun r => r.1.vendorInvoiceNo)))[i]
          = (((exploded (surviving vs)).map (fun r => r.1.vendorInvoiceNo)).take i).count
              ((exploded (surviving vs)).map (fun r => r.1.vendorInvoiceNo))[i] + 1 :=
        vinIndexes_getElem _ i himap hvlen
      have hgetvin : ((exploded (surviving vs)).map (fun r => r.1.vendorInvoiceNo))[i]
          = (exploded (surviving vs))[i].1.vendorInvoiceNo := List.getElem_map _
      have hgetD : ((exploded (surviving vs)).map (fun r => r.1.vendorInvoiceNo)).getD i ""
          = (exploded (surviving vs))[i].1.vendorInvoiceNo := by
        rw [List.getD_eq_getElem _ _ himap]
        exact List.getElem_map _
      have hcell : ∀ (a : Voucher) (b : VoucherLine) (k : Nat),
          (distrib_row a b k).getD 5 "" = toString k := fun a b k => rfl
      rw [hcell, explodedVins, hgetD, hvin, hgetvin]

/-- Witness for C4 (amended): two copies of the same raw VIN in one file;
the second row's `VINIndex` is 2. -/
theorem c4_witness :
    distrib_file [prefixedV, prefixedV] "20240101"
      = Except.ok (some (distrib_header "20240101" 2 (fmt2 2000),
          distrib_rows_of (exploded (surviving [prefixedV, prefixedV])))) ∧
    1 < (distrib_rows_of (exploded (surviving [prefixedV, prefixedV]))).length ∧
    ((distrib_rows_of (exploded (surviving [prefixedV, prefixedV]))).getD 1 []).getD 5 ""
      = toString (((explodedVins (exploded (surviving [prefixedV, prefixedV]))).take 1).count
          ((explodedVins (exploded (surviving [prefixedV, prefixedV]))).getD 1 "") + 1) :=
  ⟨rfl, by decide,
   c4_vinindex_counts_prestrip_vins [prefixedV, prefixedV] "20240101" _ _ rfl 1 (by decide)⟩

/-- **C6.** The claim says one report file per batch, one block per
surviving voucher, and a *single trailing* batch summary.  The summary
lines and the file write sit inside the per-voucher loop (lines 334–343
share the loop body's indentation), so a two-surviving-voucher batch gets
a count/grand-total summary after *each* block — both
`"Total number of invoices: 1"` and `": 2"` appear, two lines start with
`Total` — and the report filename is returned once per voucher.  The
claim's zero-surviving half does hold: an all-cancelled batch produces no
file.  The spec records the clear intent (a trailing batch summary), so
the loop-level write is a code slip. -/
theorem c6_summary_written_per_voucher :
    (create_email_report_file "2024-01-15" "voucher_report.txt" [sampleV, negativeV]).files
      = ["voucher_report.txt", "voucher_report.txt"] ∧
    "Total number of invoices: 1\n"
      ∈ (create_email_report_file "2024-01-15" "voucher_report.txt"
          [sampleV, negativeV]).report_list ∧
    "Total number of invoices: 2\n"
      ∈ (create_email_report_file "2024-01-15" "voucher_report.txt"
          [sampleV, negativeV]).report_list ∧
    ((create_email_report_file "2024-01-15" "voucher_report.txt"
        [sampleV, negativeV]).report_list.countP
      (fun s => s.data.take 5 = ['T', 'o', 't', 'a', 'l'])) = 2 ∧
    create_email_report_file "2024-01-15" "voucher_report.txt" [cancelledV]
      = ⟨[], 0, 0, []⟩ := by
  refine ⟨rfl, by decide, by decide, by decide, rfl⟩

/-- **C7 counterexample.** The claim's column enumeration — with seven
filler columns between `invoiceDate` and `VINandInvDate` — describes a
36-column row (`claimedInvoiceRowLayout`); the builder's `reindex` list
has only six fillers there (`k`..`p`), 35 columns in all, so the produced
row differs from the claimed layout. -/
theorem c7_counterexample :
    invoice_row sampleV ≠ claimedInvoiceRowLayout sampleV ∧
    (invoice_row sampleV).length = 35 ∧
    (claimedInvoiceRowLayout sampleV).length = 36 := by
  refine ⟨by decide, rfl, rfl⟩

/-- **C7 (amended).** For every produced invoice file the first line is
the 9-cell control header, and each following line is one surviving
voucher's row with columns in exactly this order: filler, accountingCode,
filler, vendorInvoiceNo padded to 15, 6 filler columns, creditDebit,
2 filler columns, invoiceDate, **6** filler columns, VINandInvDate (22),
filler, amount at two decimals, 11 filler columns, accountingCodeSuffix. -/
theorem c7_invoice_row_layout (vs : List Voucher) (d : String) (hdr : List String)
    (rows : List (List String)) (h : invoice_file vs d = some (hdr, rows)) :
    hdr.length = 9 ∧
    rows = (surviving vs).map (fun v =>
      [add_quotes "10", add_quotes (format_accounting_code v.accountingCode), "",
       add_quotes (add_space_to_vin (strip_mh v.vendorInvoiceNo) 15),
       "", "", "", add_quotes "LBR", add_quotes "10", "",
       add_quotes (if v.amount < 0 then "C" else ""), "", "",
       format_invoice_date v.invoiceDate,
       "", "", "", "", "", "",
       add_quotes (merge_vin_and_inv_date (strip_mh v.vendorInvoiceNo)
         (format_invoice_date v.invoiceDate) 22),
       "", fmt2 v.amount,
       "", "", "", "", "", "", "", "", "", "", "",
       add_quotes (extract_ac_suffix v.accountingCode)]) := by
  rw [invoice_file] at h
  by_cases hs : (surviving vs).isEmpty
  · simp [hs] at h
  · simp only [hs, Bool.false_eq_true, if_false, Option.some.injEq, Prod.mk.injEq] at h
    obtain ⟨hh, hr⟩ := h
    subst hh hr
    exact ⟨rfl, rfl⟩

/-- Witness for C7 (amended): the spec's example voucher, with the file
evaluated to its literal header and row. -/
theorem c7_witness :
    invoice_file [sampleV] "20240115"
      = some (invoice_header "20240115" (surviving [sampleV]).length
            (fmt2 ((((surviving [sampleV]).map Voucher.amount).sum).natAbs : Int)),
          (surviving [sampleV]).map invoice_row) ∧
    ((invoice_header "20240115" (surviving [sampleV]).length
        (fmt2 ((((surviving [sampleV]).map Voucher.amount).sum).natAbs : Int))).length = 9 ∧
      (surviving [sampleV]).map invoice_row = (surviving [sampleV]).map (fun v =>
        [add_quotes "10", add_quotes (format_accounting_code v.accountingCode), "",
         add_quotes (add_space_to_vin (strip_mh v.vendorInvoiceNo) 15),
         "", "", "", add_quotes "LBR", add_quotes "10", "",
         add_quotes (if v.amount < 0 then "C" else ""), "", "",
         format_invoice_date v.invoiceDate,
         "", "", "", "", "", "",
         add_quotes (merge_vin_and_inv_date (strip_mh v.vendorInvoiceNo)
           (format_invoice_date v.invoiceDate) 22),
         "", fmt2 v.amount,
         "", "", "", "", "", "", "", "", "", "", "",
         add_quotes (extract_ac_suffix v.accountingCode)])) :=
  ⟨rfl, c7_invoice_row_layout [sampleV] "20240115" _ _ rfl⟩

theorem distrib_row_ean_cells (v : Voucher) (l : VoucherLine) (idx : Nat) :
    (distrib_row v l idx).getD 10 ""
      = add_quotes ((pySplit '-' l.externalAccountNumber).getD 1 "") ∧
    (distrib_row v l idx).getD 11 ""
      = add_quotes ((pySplit '-' l.externalAccountNumber).getD 2 "") ∧
    (distrib_row v l idx).getD 12 ""
      = add_quotes (((pySplit '-' l.externalAccountNumber).getD 3 "").takeRight 2) ∧
    (distrib_row v l idx).getD 18 ""
      = add_quotes (if (pySplit '-' l.externalAccountNumber).getD 4 "" = "" then "      "
          else (pySplit '-' l.externalAccountNumber).getD 4 "") := by
  refine ⟨?_, ?_, ?_, ?_⟩
  · show add_quotes (eanSeg l.externalAccountNumber 1) = _
    rw [eanSeg_eq_split _ 1 (by omega)]
  · show add_quotes (eanSeg l.externalAccountNumber 2) = _
    rw [eanSeg_eq_split _ 2 (by omega)]
  · show add_quotes ((eanSeg l.externalAccountNumber 3).takeRight 2) = _
    rw [eanSeg_eq_split _ 3 (by omega)]
  · show add_quotes (if eanSeg l.externalAccountNumber 4 = "" then "      "
        else eanSeg l.externalAccountNumber 4) = _
    rw [eanSeg_eq_split _ 4 (by omega)]

/-- **C8 counterexample.** The claim says missing segments default to the
empty string for every surviving voucher line.  But `split(expand=True)`
only creates the `EAN4` column when some line in the file has at least
four segments; for a surviving batch whose only line's account number is
`"55-66"`, line 250 (`df['EAN4']`) raises `KeyError` and the builder
produces nothing — no defaulting happens for that line. -/
theorem c8_counterexample :
    (surviving [twoSegV]).isEmpty = false ∧
    eanColumnCount (exploded (surviving [twoSegV])) = 2 ∧
    distrib_file [twoSegV] "20240101" = Except.error "KeyError: 'EAN4'" :=
  ⟨rfl, rfl, rfl⟩

/-- **C8 (amended).** In every *produced* distrib file (which requires
some surviving line's `externalAccountNumber` to have at least four
hyphen segments; otherwise `create_distrib_csv` dies with
`KeyError: 'EAN4'` before writing anything), each row's EAN cells are the
hyphen segments of that row's `externalAccountNumber` in order, missing
segments defaulting to the empty string: columns 10–12 carry the quoted
second and third segments and the fourth segment truncated to its last
two characters, and column 18 carries the fifth segment, replaced by six
literal spaces when it is empty. -/
theorem c8_ean_segmentation_in_produced_files (vs : List Voucher) (d : String)
    (hdr : List String) (rows : List (List String))
    (h : distrib_file vs d = Except.ok (some (hdr, rows))) (i : Nat)
    (hi : i < rows.length) :
    (rows.getD i []).getD 10 ""
      = add_quotes ((pySplit '-'
          ((explodedEans (exploded (surviving vs))).getD i "")).getD 1 "") ∧
    (rows.getD i []).getD 11 ""
      = add_quotes ((pySplit '-'
          ((explodedEans (exploded (surviving vs))).getD i "")).getD 2 "") ∧
    (rows.getD i []).getD 12 ""
      = add_quotes (((pySplit '-'
          ((explodedEans (exploded (surviving vs))).getD i "")).getD 3 "").takeRight 2) ∧
    (rows.getD i []).getD 18 ""
      = add_quotes (if (pySplit '-'
            ((explodedEans (exploded (surviving vs))).getD i "")).getD 4 "" = ""
          then "      "
          else (pySplit '-'
            ((explodedEans (exploded (surviving vs))).getD i "")).getD 4 "") := by
  rw [distrib_file] at h
  by_cases hs : (surviving vs).isEmpty
  · simp [hs] at h
  · simp only [hs, Bool.false_eq_true, if_false] at h
    by_cases hc : eanColumnCount (exploded (surviving vs)) < 4
    · simp [hc] at h
    · simp only [hc, if_false, Except.ok.injEq, Option.some.injEq, Prod.mk.injEq] at h
      obtain ⟨-, hrows⟩ := h
      subst hrows
      have hlen : (vinIndexes ((exploded (surviving vs)).map
          (fun r => r.1.vendorInvoiceNo))).length = (exploded (surviving vs)).length := by
        rw [length_vinIndexes, List.length_map]
      have hiR : i < (exploded (surviving vs)).length := by
        have := hi
        simp only [distrib_rows_of, List.length_map, List.length_zip, hlen,
          Nat.min_self] at this
        exact this
      have hvlen : i < (vinIndexes ((exploded (surviving vs)).map
          (fun r => r.1.vendorInvoiceNo))).length := by omega
      have hrow : (distrib_rows_of (exploded (surviving vs)))[i]
          = distrib_row (exploded (surviving vs))[i].1
              (exploded (surviving vs))[i].2
              (vinIndexes ((exploded (surviving vs)).map
                (fun r => r.1.vendorInvoiceNo)))[i] := by
        simp only [distrib_rows_of]
        rw [List.getElem_map, List.getElem_zip]
      have hean : (explodedEans (exploded (surviving vs))).getD i ""
          = (exploded (surviving vs))[i].2.externalAccountNumber := by
        rw [explodedEans, List.getD_eq_getElem _ _ (by simpa using hiR)]
        exact List.getElem_map _
      rw [List.getD_eq_getElem _ _ hi, hrow, hean]
      exact distrib_row_ean_cells _ _ _

/-- Witness for C8 (amended): the spec's round-trip example
(`"11-22-33-4456-"`): its distrib file is produced and the first row
carries EAN2 `"22"`, EAN3 `"33"`, EAN4 `"56"` and EAN5 as six spaces. -/
theorem c8_witness :
    distrib_file [sampleV] "20240115"
      = Except.ok (some (distrib_header "20240115" 1 (fmt2 1250),
          distrib_rows_of (exploded (surviving [sampleV])))) ∧
    0 < (distrib_rows_of (exploded (surviving [sampleV]))).length ∧
    ((distrib_rows_of (exploded (surviving [sampleV]))).getD 0 []).getD 10 ""
      = add_quotes ((pySplit '-'
          ((explodedEans (exploded (surviving [sampleV]))).getD 0 "")).getD 1 "") ∧
    ((distrib_rows_of (exploded (surviving [sampleV]))).getD 0 []).getD 11 ""
      = add_quotes ((pySplit '-'
          ((explodedEans (exploded (surviving [sampleV]))).getD 0 "")).getD 2 "") ∧
    ((distrib_rows_of (exploded (surviving [sampleV]))).getD 0 []).getD 12 ""
      = add_quotes (((pySplit '-'
          ((explodedEans (exploded (surviving [sampleV]))).getD 0 "")).getD 3 "").takeRight 2) ∧
    ((distrib_rows_of (exploded (surviving [sampleV]))).getD 0 []).getD 18 ""
      = add_quotes (if (pySplit '-'
            ((explodedEans (exploded (surviving [sampleV]))).getD 0 "")).getD 4 "" = ""
          then "      "
          else (pySplit '-'
            ((explodedEans (exploded (surviving [sampleV]))).getD 0 "")).getD 4 "") :=
  ⟨rfl, by decide,
   c8_ean_segmentation_in_produced_files [sampleV] "20240115" _ _ rfl 0 (by decide)⟩

/-- **C10 counterexample.** The claim's consequence — a comma inside a
cell yields a data line with extra comma-separated fields — is false: the
data-row writer is configured with `QUOTE_NONE` and no escape character,
so a comma-bearing cell makes the write raise the csv error instead of
emitting any line. -/
theorem c10_counterexample :
    write_data_row [add_quotes "a,b"]
      = Except.error "need to escape, but no escapechar set" := rfl

/-- **C10 (amended).** The quoting step produces exactly `'"' + v + '"'`
with no escaping or doubling of embedded double quotes; the writer adds
no quoting or escaping of its own to rows whose cells are free of
delimiter and line-terminator characters, joining them verbatim with
commas; and a cell value containing a comma causes the data-row write to
raise the csv "need to escape" error rather than emit an over-wide line. -/
theorem c10_quoting_verbatim_writer (v : String) (cells : List String) :
    add_quotes v = "\"" ++ v ++ "\"" ∧
    ((cells.any (fun s => s.data.any csvSpecialChar)) = false →
      write_data_row cells = Except.ok (String.intercalate "," cells)) ∧
    ((cells.any (fun s => s.data.contains ',')) = true →
      write_data_row cells = Except.error "need to escape, but no escapechar set") := by
  refine ⟨rfl, fun hc => by simp [write_data_row, hc], fun hc => ?_⟩
  have hsp : (cells.any (fun s => s.data.any csvSpecialChar)) = true := by
    rw [List.any_eq_true] at hc ⊢
    obtain ⟨s, hs, hcs⟩ := hc
    refine ⟨s, hs, List.any_eq_true.mpr ⟨',', by simpa using hcs, rfl⟩⟩
  simp [write_data_row, hsp]

/-- Witness for C10 (amended): a value with an embedded double quote, a
comma-free row that is joined verbatim, and a comma-bearing row that
errors. -/
theorem c10_witness :
    add_quotes "a\"b" = "\"" ++ "a\"b" ++ "\"" ∧
    ((([add_quotes "ab", add_quotes "cd"] : List String).any
        (fun s => s.data.any csvSpecialChar)) = false ∧
      write_data_row [add_quotes "ab", add_quotes "cd"]
        = Except.ok (String.intercalate "," [add_quotes "ab", add_quotes "cd"])) ∧
    ((([add_quotes "a,b"] : List String).any (fun s => s.data.contains ',')) = true ∧
      write_data_row [add_quotes "a,b"]
        = Except.error "need to escape, but no escapechar set") :=
  ⟨(c10_quoting_verbatim_writer "a\"b" []).1,
   ⟨by decide, (c10_quoting_verbatim_writer "x" [add_quotes "ab", add_quotes "cd"]).2.1
      (by decide)⟩,
   ⟨by decide, (c10_quoting_verbatim_writer "x" [add_quotes "a,b"]).2.2 (by decide)⟩⟩

end FolioToLawson
